import Mathlib

/-!
Verification of the Regional Violence Analytics Engine (src/app.py).

The development shallowly embeds the analytical core of the service:
the pandas DataFrame of incident records, the cleaning step of
`HomicidiosDataProcessor.cargar_datos` / `_limpiar_datos`, and the grouped
aggregation endpoints (`lista_entidades`, `indices_violencia`,
`zonas_calientes`, `mapa_calor_geografico`, `analisis_tendencias`,
`comparar_entidades`, `perfil_demografico`, `estadisticas_generales`) together
with the risk classifier `clasificar_riesgo`.

Modelling conventions:
- Numpy/pandas floating point values are modelled by `PFloat`: either NaN,
  +inf, -inf, or an exact rational.  Arithmetic follows IEEE-754 rules for
  the special values (division of a positive number by zero gives +inf,
  0/0 gives NaN, NaN propagates); finite arithmetic is exact rational
  arithmetic.  `Series.round(2)` is modelled as exact round-half-to-even at
  two decimals (numpy rounds half to even; binary representation artifacts
  are outside the model).
- A pandas DataFrame is a list of typed records plus one flag,
  `hasEmptyCol`, recording whether the table has a column literally named
  `''` (the empty string).  Every grouped endpoint of the source aggregates
  with the dict entry `'': 'count'`; pandas raises a `KeyError` when no such
  column exists, which the service's generic exception handler surfaces as
  an HTTP 500.  The `emptyCol` field of a record is the value of that column
  when it exists.
- `Series.value_counts()` is modelled as: distinct values in order of first
  appearance (the pandas hash table preserves insertion order), with NaN
  dropped, sorted by count descending.  The model realizes the sort with a
  stable algorithm; pandas itself sorts with numpy's unstable quicksort
  (`sort_values` default `kind='quicksort'`), so the order of tied counts is
  implementation-defined there and only coincides with first-appearance
  order in numpy's small-array insertion-sort regime.  No theorem below
  depends on the order of tied counts.
- `groupby` over string keys is modelled with groups in order of first
  appearance; no property below depends on the order of groups, only on
  their contents (pandas additionally sorts group keys ascending; for the
  month grouping used by the temporal endpoint the model sorts the keys,
  because consecutive-month differences do matter there).
- HTTP 404s raised via `HTTPException` and pandas `KeyError`s surfaced as
  internal 500 errors are modelled by the `Except ApiError` monad.
- Presentation-only output fields that no claim mentions (emoji banners,
  metodologia text, percentile ranks, means/medians of summary blocks,
  coordinate centroids) are omitted from the result structures.
-/

namespace Napi

/-! ### Floating point values -/

/-- Model of a numpy/pandas 64-bit float: NaN, the two infinities, or a
finite value represented exactly as a rational. -/
inductive PFloat where
  | nan : PFloat
  | inf : PFloat
  | ninf : PFloat
  | val : ℚ → PFloat
deriving DecidableEq

/-- True exactly on NaN; pandas reductions such as `Series.mean` skip these. -/
def PFloat.isNaN : PFloat → Bool
  | .nan => true
  | _ => false

/-- IEEE negation. -/
def PFloat.neg : PFloat → PFloat
  | .nan => .nan
  | .inf => .ninf
  | .ninf => .inf
  | .val q => .val (-q)

/-- IEEE addition on the embedded floats (signed zeros are irrelevant here). -/
def PFloat.add : PFloat → PFloat → PFloat
  | .nan, _ => .nan
  | _, .nan => .nan
  | .inf, .ninf => .nan
  | .ninf, .inf => .nan
  | .inf, _ => .inf
  | _, .inf => .inf
  | .ninf, _ => .ninf
  | _, .ninf => .ninf
  | .val a, .val b => .val (a + b)

/-- IEEE subtraction. -/
def PFloat.sub (x y : PFloat) : PFloat := x.add y.neg

/-- IEEE multiplication (inf·0 is NaN). -/
def PFloat.mul : PFloat → PFloat → PFloat
  | .nan, _ => .nan
  | _, .nan => .nan
  | .inf, .inf => .inf
  | .inf, .ninf => .ninf
  | .ninf, .inf => .ninf
  | .ninf, .ninf => .inf
  | .inf, .val b => if b = 0 then .nan else if 0 < b then .inf else .ninf
  | .val a, .inf => if a = 0 then .nan else if 0 < a then .inf else .ninf
  | .ninf, .val b => if b = 0 then .nan else if 0 < b then .ninf else .inf
  | .val a, .ninf => if a = 0 then .nan else if 0 < a then .ninf else .inf
  | .val a, .val b => .val (a * b)

/-- IEEE division: a nonzero finite number divided by zero is a signed
infinity and 0/0 is NaN — numpy emits a warning but still produces these
values (`warnings.filterwarnings('ignore')` in the source silences it). -/
def PFloat.div : PFloat → PFloat → PFloat
  | .nan, _ => .nan
  | _, .nan => .nan
  | .inf, .inf => .nan
  | .inf, .ninf => .nan
  | .ninf, .inf => .nan
  | .ninf, .ninf => .nan
  | .inf, .val b => if 0 ≤ b then .inf else .ninf
  | .ninf, .val b => if 0 ≤ b then .ninf else .inf
  | .val _, .inf => .val 0
  | .val _, .ninf => .val 0
  | .val a, .val b =>
    if b = 0 then (if a = 0 then .nan else if 0 < a then .inf else .ninf)
    else .val (a / b)

/-- Comparison `x >= c` against a finite constant, with IEEE NaN semantics:
any comparison with NaN is false. -/
def PFloat.geQ : PFloat → ℚ → Bool
  | .nan, _ => false
  | .inf, _ => true
  | .ninf, _ => false
  | .val q, c => decide (c ≤ q)

/-- Round a rational to the nearest integer, ties to even (the rounding of
`numpy.round` and of Python's builtin `round`).  `Rat.floor` is the
kernel-computable floor; `ratFloor_eq_floor` below links it to `⌊⌋`. -/
def roundHalfToEven (q : ℚ) : ℤ :=
  if q - (q.floor : ℚ) < 1/2 then q.floor
  else if 1/2 < q - (q.floor : ℚ) then q.floor + 1
  else if q.floor % 2 = 0 then q.floor else q.floor + 1

/-- The computable floor agrees with the floor of the `FloorRing`
structure. -/
theorem ratFloor_eq_floor (q : ℚ) : q.floor = ⌊q⌋ := by
  rw [Rat.floor_def', Rat.floor_def]

/-- Round a rational to two decimal places, half to even: the model of
`.round(2)` on finite values. -/
def roundQ2 (q : ℚ) : ℚ := (roundHalfToEven (q * 100) : ℚ) / 100

/-- Model of pandas `.round(2)`: NaN and the infinities are fixed points. -/
def PFloat.round2 : PFloat → PFloat
  | .nan => .nan
  | .inf => .inf
  | .ninf => .ninf
  | .val q => .val (roundQ2 q)

/-- Lift the nullable population aggregate into a float: a missing value is
NaN, exactly as pandas stores a missing numeric. -/
def PFloat.ofOption : Option ℚ → PFloat
  | none => .nan
  | some q => .val q

/-- Sum of a list of floats, as pandas computes it over the kept values. -/
def pfSum (xs : List PFloat) : PFloat := xs.foldl PFloat.add (.val 0)

/-- Model of `Series.mean()` with the default `skipna=True`: NaN entries are
dropped, the mean of nothing is NaN, and an infinity dominates the sum. -/
def pfMean (xs : List PFloat) : PFloat :=
  let kept := xs.filter (fun x => !x.isNaN)
  if kept.length = 0 then .nan
  else (pfSum kept).div (.val (kept.length : ℚ))

/-- Ordering used to model `sort_values(ascending=False)`: descending with
NaN placed last (`na_position='last'`).  Only membership in the sorted
output is used by the theorems below. -/
def pfDescGe (x y : PFloat) : Bool :=
  match x, y with
  | .nan, _ => false
  | _, .nan => true
  | .inf, _ => true
  | _, .inf => false
  | .ninf, .ninf => true
  | .ninf, .val _ => false
  | .val _, .ninf => true
  | .val a, .val b => decide (b ≤ a)

/-! ### Records and frames -/

/-- A parsed occurrence date (`fecha_ocurr` after `pd.to_datetime`). -/
structure Fecha where
  anio : Nat
  mes : Nat
  dia : Nat
deriving DecidableEq

/-- One row of the homicide table, with the columns the analytical core
reads.  Numeric columns already went through `pd.to_numeric(errors='coerce')`
so failed parses are `none`.  `emptyCol` is the value of the column literally
named `''` when the table has one (see `DataFrame.hasEmptyCol`). -/
structure Record where
  claveEntidad : String
  nomEnt : String
  claveMunicipio : String
  nomMun : String
  fechaOcurr : Option Fecha
  anioOcur : Int
  sexoCat : Option String
  edadAnos : Option ℚ
  causaDefCat : Option String
  lugarOcurCat : Option String
  pobTotal : Option ℚ
  latDecimal : Option ℚ
  lonDecimal : Option ℚ
  emptyCol : Option String
deriving DecidableEq

/-- A pandas DataFrame of incident records.  `hasEmptyCol` records whether a
column named `''` exists: the grouped endpoints aggregate with the dict key
`''` and pandas raises `KeyError` when the column is absent. -/
structure DataFrame where
  hasEmptyCol : Bool
  rows : List Record
deriving DecidableEq

/-- Month of occurrence (`df['mes_ocurr']`), derived from the parsed date;
rows kept by cleaning always have a date. -/
def mesDe (r : Record) : Nat :=
  match r.fechaOcurr with
  | some f => f.mes
  | none => 0

/-- Model of `_limpiar_datos`: drop rows without a parsable occurrence date
and keep only rows whose `anio_ocur` column equals 2024.  The derived
calendar columns are recomputed on demand via `mesDe`. -/
def limpiar_datos (df : DataFrame) : DataFrame :=
  { df with rows := df.rows.filter (fun r => r.fechaOcurr.isSome && decide (r.anioOcur = 2024)) }

/-- Model of `HomicidiosDataProcessor.cargar_datos` acting on the processor
state (`self.df`, `none` before any load).  The input is the parsed CSV
table; for every well-formed parsed table the function reaches its success
path: it cleans, rebuilds the lookup indexes (derived data, omitted), stores
the cleaned frame and returns `True`.  File-system failures and missing
source columns sit outside the embedded fragment. -/
def cargar_datos (_st : Option DataFrame) (raw : DataFrame) : Bool × Option DataFrame :=
  (true, some (limpiar_datos raw))

/-- Model of the `get_data` dependency: lazily load when no frame is
published yet.  A published empty frame is not `None`, so it is served
as-is. -/
def get_data (st : Option DataFrame) (raw : DataFrame) : Option DataFrame :=
  match st with
  | none => (cargar_datos none raw).2
  | some df => some df

/-! ### Grouping helpers -/

/-- Distinct keys of a list in order of first appearance, accumulator
version: the iteration order of a Python dict / pandas hash table. -/
def firstOccAux {A K : Type} [DecidableEq K] (key : A → K) : List K → List A → List K
  | acc, [] => acc
  | acc, x :: xs => firstOccAux key (if key x ∈ acc then acc else acc ++ [key x]) xs

/-- Distinct keys of a list in order of first appearance. -/
def firstOccKeys {A K : Type} [DecidableEq K] (key : A → K) (xs : List A) : List K :=
  firstOccAux key [] xs

/-- Count of non-null entries of the `''` column within a group: the value
pandas' `'': 'count'` aggregation reports (`count` counts non-NA cells). -/
def countNonNull (rows : List Record) : Nat :=
  (rows.filter (fun r => r.emptyCol.isSome)).length

/-- The `'pob_total': 'max'` aggregate of a group: maximum over the non-null
populations, `none` (NaN) when every value is missing. -/
def pobMax (rows : List Record) : Option ℚ :=
  (rows.filterMap (fun r => r.pobTotal)).foldl
    (fun acc q => match acc with
      | none => some q
      | some m => some (max m q)) none

/-! ### value_counts and top-N -/

/-- Relation ordering count pairs by count descending (used as the sort
relation of `value_counts`). -/
def cntGe (a b : String × Nat) : Prop := b.2 ≤ a.2

instance : DecidableRel cntGe := fun a b => inferInstanceAs (Decidable (b.2 ≤ a.2))

/-- Counts of the distinct non-null values, listed in order of first
appearance: the content of the pandas hash table before sorting. -/
def conteosPrimeraAparicion (xs : List (Option String)) : List (String × Nat) :=
  let vals := xs.filterMap id
  (firstOccKeys id vals).map (fun k => (k, vals.count k))

/-- Model of `Series.value_counts()`: drop NaN, count distinct values in
first-appearance order, then sort by count descending.  The model's sort is
stable; in pandas the sort is numpy's unstable quicksort, so no result
below may (and none does) rely on the relative order of equal counts. -/
def value_counts (xs : List (Option String)) : List (String × Nat) :=
  List.insertionSort cntGe (conteosPrimeraAparicion xs)

/-- Model of `value_counts().head(n)`: the top-n selection used for the
leading causes and places. -/
def valueCountsHead (n : Nat) (xs : List (Option String)) : List (String × Nat) :=
  (value_counts xs).take n

/-! ### Errors -/

/-- Errors a query can surface: `notFound` models an `HTTPException` with
status 404, `internal` models an uncaught exception converted to an HTTP 500
by the generic exception handler of the app. -/
inductive ApiError where
  | notFound : String → ApiError
  | internal : String → ApiError
deriving DecidableEq

/-- Detail string of the 404 raised when a frame is absent. -/
def msgNoData : String := "No hay datos disponibles"

/-- Detail string of the 404 raised when a filter combination matches no
record. -/
def msgNoFiltros : String := "No se encontraron datos para los filtros especificados"

/-- Detail string of the 404 raised by the entity comparison endpoint. -/
def msgNoEntidades : String := "No se encontraron datos para las entidades especificadas"

/-- Message of the HTTP 500 the generic handler returns when pandas raises
(`KeyError` from the `'': 'count'` aggregation included). -/
def msgErrorInterno : String := "Error interno del servidor"

/-- The 404 for a missing frame. -/
def errNoData : ApiError := .notFound msgNoData

/-- The 404 for zero-match filters. -/
def errFiltros : ApiError := .notFound msgNoFiltros

/-- The 404 for zero-match entity lists. -/
def errEntidades : ApiError := .notFound msgNoEntidades

/-- The 500 produced by the `KeyError` of aggregating a nonexistent `''`
column. -/
def errAggKeyError : ApiError := .internal msgErrorInterno

/-! ### Shared metric computations -/

/-- Rate per 100k inhabitants as every endpoint computes it:
`(total_casos / poblacion * 100000).round(2)` in float arithmetic. -/
def tasaPor100k (casos : Nat) (pob : Option ℚ) : PFloat :=
  (((PFloat.val (casos : ℚ)).div (PFloat.ofOption pob)).mul (.val 100000)).round2

/-- Composite violence index:
`(tasa * w1 + (casos / max_casos * 100) * w2).round(2)`; the weights are
`(0.6, 0.4)` in `indices_violencia` and `comparar_entidades` and
`(0.4, 0.6)` in `zonas_calientes`. -/
def indiceCompuesto (w1 w2 : ℚ) (tasa : PFloat) (casos maxCasos : Nat) : PFloat :=
  ((tasa.mul (.val w1)).add
    ((((PFloat.val (casos : ℚ)).div (.val (maxCasos : ℚ))).mul (.val 100)).mul (.val w2))).round2

/-- Label for the top risk band. -/
def etiquetaCritico : String := "🔴 CRÍTICO"

/-- Label for the high risk band. -/
def etiquetaAlto : String := "🟠 ALTO"

/-- Label for the medium risk band. -/
def etiquetaMedio : String := "🟡 MEDIO"

/-- Label for the low risk band. -/
def etiquetaBajo : String := "🟢 BAJO"

/-- Label for the bottom risk band. -/
def etiquetaMuyBajo : String := "✅ MUY BAJO"

/-- Model of the nested `clasificar_riesgo` closure of `indices_violencia`:
a five-band step function of the index, inclusive on each lower bound. -/
def clasificar_riesgo (indice : PFloat) : String :=
  if indice.geQ 80 then etiquetaCritico
  else if indice.geQ 60 then etiquetaAlto
  else if indice.geQ 40 then etiquetaMedio
  else if indice.geQ 20 then etiquetaBajo
  else etiquetaMuyBajo

/-! ### Endpoint: lista_entidades -/

/-- Key of the `groupby(['clave_entidad', 'nom_ent'])` grouping. -/
def entKey (r : Record) : String × String := (r.claveEntidad, r.nomEnt)

/-- Rows of one entity group. -/
def entGroup (rows : List Record) (k : String × String) : List Record :=
  rows.filter (fun r => decide (entKey r = k))

/-- One row of the per-entity statistics frame of `lista_entidades`. -/
structure EntidadStats where
  claveEntidad : String
  nombreEntidad : String
  totalCasos : Nat
  poblacion : Option ℚ
  tasa : PFloat
deriving DecidableEq

/-- Build the `lista_entidades` row for one entity key. -/
def entStatRow (rows : List Record) (k : String × String) : EntidadStats :=
  { claveEntidad := k.1
    nombreEntidad := k.2
    totalCasos := countNonNull (entGroup rows k)
    poblacion := pobMax (entGroup rows k)
    tasa := tasaPor100k (countNonNull (entGroup rows k)) (pobMax (entGroup rows k)) }

/-- Per-entity statistics before the final sort. -/
def listaEntidadesStats (rows : List Record) : List EntidadStats :=
  (firstOccKeys entKey rows).map (entStatRow rows)

/-- Model of the `/entidades/lista` endpoint body: group by entity, count
the `''` column, take max population, compute the rate and sort by rate
descending.  The aggregation raises `KeyError` (surfaced as a 500) when the
frame has no `''` column. -/
def lista_entidades (df : DataFrame) : Except ApiError (List EntidadStats) :=
  if df.hasEmptyCol then
    .ok (List.insertionSort (fun a b => pfDescGe a.tasa b.tasa = true) (listaEntidadesStats df.rows))
  else .error errAggKeyError

/-! ### Endpoint: indices_violencia -/

/-- Aggregation granularity of `indices_violencia` (`tipo` query param). -/
inductive TipoAnalisis where
  | entidad : TipoAnalisis
  | municipio : TipoAnalisis
deriving DecidableEq

/-- Key of the `groupby(['clave_municipio', 'nom_mun', 'nom_ent'])`
grouping. -/
def munKey (r : Record) : String × String × String :=
  (r.claveMunicipio, r.nomMun, r.nomEnt)

/-- Rows of one municipality group. -/
def munGroup (rows : List Record) (k : String × String × String) : List Record :=
  rows.filter (fun r => decide (munKey r = k))

/-- One aggregated group before the violence metrics are attached. -/
structure AggRow where
  clave : String
  nombre : String
  entidadNombre : Option String
  totalCasos : Nat
  poblacion : Option ℚ
  distribucionSexo : List (String × Nat)
  causasPrincipales : List (String × Nat)
  lugaresPrincipales : List (String × Nat)
deriving DecidableEq

/-- Aggregate one entity group for `indices_violencia`. -/
def aggRowEnt (rows : List Record) (k : String × String) : AggRow :=
  { clave := k.1
    nombre := k.2
    entidadNombre := none
    totalCasos := countNonNull (entGroup rows k)
    poblacion := pobMax (entGroup rows k)
    distribucionSexo := value_counts ((entGroup rows k).map (fun r => r.sexoCat))
    causasPrincipales := valueCountsHead 3 ((entGroup rows k).map (fun r => r.causaDefCat))
    lugaresPrincipales := valueCountsHead 3 ((entGroup rows k).map (fun r => r.lugarOcurCat)) }

/-- Aggregate one municipality group for `indices_violencia`. -/
def aggRowMun (rows : List Record) (k : String × String × String) : AggRow :=
  { clave := k.1
    nombre := k.2.1
    entidadNombre := some k.2.2
    totalCasos := countNonNull (munGroup rows k)
    poblacion := pobMax (munGroup rows k)
    distribucionSexo := value_counts ((munGroup rows k).map (fun r => r.sexoCat))
    causasPrincipales := valueCountsHead 3 ((munGroup rows k).map (fun r => r.causaDefCat))
    lugaresPrincipales := valueCountsHead 3 ((munGroup rows k).map (fun r => r.lugarOcurCat)) }

/-- The aggregated frame of `indices_violencia`, by granularity. -/
def aggRows (tipo : TipoAnalisis) (rows : List Record) : List AggRow :=
  match tipo with
  | .entidad => (firstOccKeys entKey rows).map (aggRowEnt rows)
  | .municipio => (firstOccKeys munKey rows).map (aggRowMun rows)

/-- Model of `indices['total_casos'].max()`: the largest raw count within
the current result batch. -/
def maxTotalCasos (l : List AggRow) : Nat :=
  l.foldl (fun m a => max m a.totalCasos) 0

/-- A group of `indices_violencia` with the violence metrics attached. -/
structure IndiceRow where
  clave : String
  nombre : String
  entidadNombre : Option String
  totalCasos : Nat
  poblacion : Option ℚ
  distribucionSexo : List (String × Nat)
  causasPrincipales : List (String × Nat)
  lugaresPrincipales : List (String × Nat)
  tasa : PFloat
  indice : PFloat
  categoriaRiesgo : String
deriving DecidableEq

/-- Attach rate, composite index and risk class to one aggregated group. -/
def mkIndiceRow (w1 w2 : ℚ) (maxC : Nat) (a : AggRow) : IndiceRow :=
  { clave := a.clave
    nombre := a.nombre
    entidadNombre := a.entidadNombre
    totalCasos := a.totalCasos
    poblacion := a.poblacion
    distribucionSexo := a.distribucionSexo
    causasPrincipales := a.causasPrincipales
    lugaresPrincipales := a.lugaresPrincipales
    tasa := tasaPor100k a.totalCasos a.poblacion
    indice := indiceCompuesto w1 w2 (tasaPor100k a.totalCasos a.poblacion) a.totalCasos maxC
    categoriaRiesgo :=
      clasificar_riesgo
        (indiceCompuesto w1 w2 (tasaPor100k a.totalCasos a.poblacion) a.totalCasos maxC) }

/-- Model of the `/indices/violencia` endpoint body (its `top_regiones`
list): aggregate by the selected granularity, attach rate, index (weights
0.6 for the rate and 0.4 for the batch-relative volume) and risk class,
sort by index descending and truncate to `limite`. -/
def indices_violencia (tipo : TipoAnalisis) (limite : Nat) (df : DataFrame) :
    Except ApiError (List IndiceRow) :=
  if df.hasEmptyCol then
    .ok ((List.insertionSort (fun a b => pfDescGe a.indice b.indice = true)
      ((aggRows tipo df.rows).map
        (mkIndiceRow 0.6 0.4 (maxTotalCasos (aggRows tipo df.rows))))).take limite)
  else .error errAggKeyError

/-! ### Endpoint: zonas_calientes -/

/-- One municipality row of `zonas_calientes`. -/
structure ZonaRow where
  claveMunicipio : String
  nombreMunicipio : String
  entidad : String
  totalCasos : Nat
  poblacion : Option ℚ
  causasPrincipales : List (String × Nat)
  tasa : PFloat
  indice : PFloat
deriving DecidableEq

/-- The aggregated municipality frame of `zonas_calientes` before the
metrics are attached (coordinate centroids omitted). -/
def zonaAggRow (rows : List Record) (k : String × String × String) : AggRow :=
  { clave := k.1
    nombre := k.2.1
    entidadNombre := some k.2.2
    totalCasos := countNonNull (munGroup rows k)
    poblacion := pobMax (munGroup rows k)
    distribucionSexo := []
    causasPrincipales := valueCountsHead 3 ((munGroup rows k).map (fun r => r.causaDefCat))
    lugaresPrincipales := [] }

/-- Aggregated municipality groups of `zonas_calientes`. -/
def zonaAggRows (rows : List Record) : List AggRow :=
  (firstOccKeys munKey rows).map (zonaAggRow rows)

/-- Attach the `zonas_calientes` metrics (weights 0.4 on the rate, 0.6 on
the batch-relative volume) to one aggregated group. -/
def mkZonaRow (maxC : Nat) (a : AggRow) : ZonaRow :=
  { claveMunicipio := a.clave
    nombreMunicipio := a.nombre
    entidad := a.entidadNombre.getD ""
    totalCasos := a.totalCasos
    poblacion := a.poblacion
    causasPrincipales := a.causasPrincipales
    tasa := tasaPor100k a.totalCasos a.poblacion
    indice := indiceCompuesto 0.4 0.6 (tasaPor100k a.totalCasos a.poblacion) a.totalCasos maxC }

/-- Model of the `/geografico/zonas-calientes` endpoint body: aggregate by
municipality, attach rate and index with weights (0.4, 0.6), and return the
`limite` rows of largest index (`nlargest`, modelled as a descending sort
followed by truncation). -/
def zonas_calientes (limite : Nat) (df : DataFrame) : Except ApiError (List ZonaRow) :=
  if df.hasEmptyCol then
    .ok ((List.insertionSort (fun a b => pfDescGe a.indice b.indice = true)
      ((zonaAggRows df.rows).map
        (mkZonaRow (maxTotalCasos (zonaAggRows df.rows))))).take limite)
  else .error errAggKeyError

/-! ### Endpoint: mapa_calor_geografico -/

/-- Key of the `groupby(['clave_entidad', 'nom_ent', 'lat_decimal',
'lon_decimal'])` grouping; `none` when a coordinate is missing — pandas
drops rows with a NaN group key. -/
def calorKey (r : Record) : Option (String × String × ℚ × ℚ) :=
  match r.latDecimal, r.lonDecimal with
  | some la, some lo => some (r.claveEntidad, r.nomEnt, la, lo)
  | _, _ => none

/-- Rows of one heat-map group. -/
def calorGroup (rows : List Record) (k : String × String × ℚ × ℚ) : List Record :=
  rows.filter (fun r => decide (calorKey r = some k))

/-- One output row of the heat map (metric `tasa`, granularity `entidad`). -/
structure CalorRow where
  clave : String
  nombre : String
  latitud : ℚ
  longitud : ℚ
  totalCasos : Nat
  poblacion : Option ℚ
  valor : PFloat
deriving DecidableEq

/-- Build one heat-map row. -/
def calorRowDe (rows : List Record) (k : String × String × ℚ × ℚ) : CalorRow :=
  { clave := k.1
    nombre := k.2.1
    latitud := k.2.2.1
    longitud := k.2.2.2
    totalCasos := countNonNull (calorGroup rows k)
    poblacion := pobMax (calorGroup rows k)
    valor := tasaPor100k (countNonNull (calorGroup rows k)) (pobMax (calorGroup rows k)) }

/-- Model of the `/geografico/mapa-calor` endpoint body for
`tipo=entidad`, `metrica=tasa` (the other metric branches share the same
aggregation and hence the same `KeyError` behaviour): group by entity and
coordinates, compute the rate, sort descending. -/
def mapa_calor_geografico (df : DataFrame) : Except ApiError (List CalorRow) :=
  if df.hasEmptyCol then
    .ok (List.insertionSort (fun a b => pfDescGe a.valor b.valor = true)
      ((firstOccKeys id (df.rows.filterMap calorKey)).map (calorRowDe df.rows)))
  else .error errAggKeyError

/-! ### Endpoint: analisis_tendencias (periodo=mensual) -/

/-- Rows of one month bucket. -/
def mesGroup (rows : List Record) (m : Nat) : List Record :=
  rows.filter (fun r => decide (mesDe r = m))

/-- Months present in the frame, ascending: pandas `groupby('mes_ocurr')`
sorts group keys, and the endpoint re-sorts by month before differencing. -/
def mesesPresentes (rows : List Record) : List Nat :=
  List.insertionSort (· ≤ ·) (firstOccKeys mesDe rows)

/-- Model of `Series.pct_change() * 100` on the tail of the count series:
each entry is `(curr - prev) / prev * 100` in float arithmetic. -/
def pctChanges (prev : ℚ) : List ℚ → List PFloat
  | [] => []
  | c :: cs =>
    (((PFloat.val c).sub (.val prev)).div (.val prev)).mul (.val 100) :: pctChanges c cs

/-- Model of the full `pct_change() * 100` column: its first entry is NaN. -/
def variacion100 : List ℚ → List PFloat
  | [] => []
  | c :: cs => .nan :: pctChanges c cs

/-- Result of the monthly trend analysis (presentation fields omitted). -/
structure TendenciasOut where
  datos : List (Nat × Nat)
  tendenciaGeneral : PFloat
deriving DecidableEq

/-- Entity filter used by several endpoints
(`df[df['clave_entidad'] == entidad]`). -/
def filtrarEntidad (entidad : Option String) (rows : List Record) : List Record :=
  match entidad with
  | none => rows
  | some e => rows.filter (fun r => decide (r.claveEntidad = e))

/-- Model of the `/temporal/tendencias` endpoint body for
`periodo=mensual`: optional entity filter, 404 when nothing matches, then
month buckets with their `''`-column counts, and the mean of the
month-over-month percentage changes as the overall trend (`0` when at most
one month bucket exists).  The bucket aggregation raises `KeyError` when
the frame has no `''` column. -/
def analisis_tendencias (entidad : Option String) (df : DataFrame) :
    Except ApiError TendenciasOut :=
  let rows := filtrarEntidad entidad df.rows
  if rows.isEmpty then .error errFiltros
  else if df.hasEmptyCol then
    .ok
      { datos := (mesesPresentes rows).map (fun m => (m, countNonNull (mesGroup rows m)))
        tendenciaGeneral :=
          if 1 < (mesesPresentes rows).length then
            pfMean (variacion100
              ((mesesPresentes rows).map (fun m => ((countNonNull (mesGroup rows m) : ℚ)))))
          else .val 0 }
  else .error errAggKeyError

/-! ### Endpoint: comparar_entidades -/

/-- One comparison row (ranking/context decoration omitted). -/
structure CompRow where
  clave : String
  nombre : String
  totalCasos : Nat
  poblacion : Option ℚ
  tasa : PFloat
  indice : PFloat
deriving DecidableEq

/-- Record filter of `comparar_entidades`:
`df[df['clave_entidad'].isin(lista_entidades)]` where the argument is the
already-split code list (`entidades.split(',')` — the comma-splitting of
the query string is transport plumbing). -/
def comparFilter (entidades : List String) (rows : List Record) : List Record :=
  rows.filter (fun r => entidades.contains r.claveEntidad)

/-- Build one comparison row. -/
def compRowDe (maxC : Nat) (rows : List Record) (k : String × String) : CompRow :=
  { clave := k.1
    nombre := k.2
    totalCasos := countNonNull (entGroup rows k)
    poblacion := pobMax (entGroup rows k)
    tasa := tasaPor100k (countNonNull (entGroup rows k)) (pobMax (entGroup rows k))
    indice := indiceCompuesto 0.6 0.4
      (tasaPor100k (countNonNull (entGroup rows k)) (pobMax (entGroup rows k)))
      (countNonNull (entGroup rows k)) maxC }

/-- Intermediate comparison rows of the filtered frame. -/
def compRows (entidades : List String) (df : DataFrame) : List CompRow :=
  (firstOccKeys entKey (comparFilter entidades df.rows)).map
    (compRowDe
      (maxTotalCasos (aggRows .entidad (comparFilter entidades df.rows)))
      (comparFilter entidades df.rows))

/-- Model of the `/comparativo/entidades` endpoint body for the default
metric `tasa`: filter by the requested entity codes, 404 when nothing
matches, aggregate by entity, attach rate and (0.6, 0.4) index and sort by
rate descending.  The aggregation raises `KeyError` when the frame has no
`''` column — note the 404 check runs before the aggregation. -/
def comparar_entidades (entidades : List String) (df : DataFrame) :
    Except ApiError (List CompRow) :=
  if (comparFilter entidades df.rows).isEmpty then .error errEntidades
  else if df.hasEmptyCol then
    .ok (List.insertionSort (fun a b => pfDescGe a.tasa b.tasa = true)
      (compRows entidades df))
  else .error errAggKeyError

/-! ### Endpoint: perfil_demografico -/

/-- Per-sex block of the demographic profile. -/
structure SexoAnalisis where
  sexo : String
  totalCasos : Nat
  porcentaje : ℚ
  causasPrincipales : List (String × Nat)
  lugaresPrincipales : List (String × Nat)
deriving DecidableEq

/-- Demographic profile result (age/ethnic blocks and age statistics
omitted; they use no definition the claims mention). -/
structure PerfilOut where
  totalCasosAnalizados : Nat
  porcentajeDelTotal : ℚ
  analisisSexo : List SexoAnalisis
deriving DecidableEq

/-- Subregion filter (`df[df['clave_municipio'] == municipio]`). -/
def filtrarMunicipio (municipio : Option String) (rows : List Record) : List Record :=
  match municipio with
  | none => rows
  | some m => rows.filter (fun r => decide (r.claveMunicipio = m))

/-- Build the per-sex analysis block for one non-null sex value. -/
def sexoBloque (rows : List Record) (s : String) : SexoAnalisis :=
  { sexo := s
    totalCasos := (rows.filter (fun r => decide (r.sexoCat = some s))).length
    porcentaje :=
      roundQ2 (((rows.filter (fun r => decide (r.sexoCat = some s))).length : ℚ)
        / (rows.length : ℚ) * 100)
    causasPrincipales :=
      valueCountsHead 3 ((rows.filter (fun r => decide (r.sexoCat = some s))).map
        (fun r => r.causaDefCat))
    lugaresPrincipales :=
      valueCountsHead 3 ((rows.filter (fun r => decide (r.sexoCat = some s))).map
        (fun r => r.lugarOcurCat)) }

/-- Model of the `/demografico/perfil` endpoint body: optional entity and
subregion filters, a 404 when the filtered frame is empty, then the per-sex
breakdown over the distinct non-null sexes in first-appearance order
(`Series.unique` with the `pd.notna` guard of the source). -/
def perfil_demografico (entidad municipio : Option String) (df : DataFrame) :
    Except ApiError PerfilOut :=
  let rows := filtrarMunicipio municipio (filtrarEntidad entidad df.rows)
  if rows.isEmpty then .error errFiltros
  else
    .ok
      { totalCasosAnalizados := rows.length
        porcentajeDelTotal := roundQ2 ((rows.length : ℚ) / (df.rows.length : ℚ) * 100)
        analisisSexo :=
          (firstOccKeys (fun r => r.sexoCat) rows).filterMap
            (fun s? => s?.map (sexoBloque rows)) }

/-! ### Endpoint: estadisticas_generales -/

/-- General statistics result.  `fechaActualizacion` is
`datetime.now().isoformat()`: the wall clock is an explicit argument of the
model. -/
structure EstadisticasOut where
  totalCasos : Nat
  entidadesAfectadas : Nat
  municipiosAfectados : Nat
  fechaActualizacion : String
  porSexo : List (String × Nat)
  porMes : List (Nat × Nat)
deriving DecidableEq

/-- Model of the `/estadisticas/general` endpoint on the processor state:
404 when no frame is published or the frame is empty; otherwise row counts,
distinct-key counts, value-count distributions and the current timestamp. -/
def estadisticas_generales (st : Option DataFrame) (now : String) :
    Except ApiError EstadisticasOut :=
  match st with
  | none => .error errNoData
  | some df =>
    if df.rows.isEmpty then .error errNoData
    else
      .ok
        { totalCasos := df.rows.length
          entidadesAfectadas := (firstOccKeys (fun r => r.claveEntidad) df.rows).length
          municipiosAfectados := (firstOccKeys (fun r => r.claveMunicipio) df.rows).length
          fechaActualizacion := now
          porSexo := value_counts (df.rows.map (fun r => r.sexoCat))
          porMes := (mesesPresentes df.rows).map (fun m => (m, (mesGroup df.rows m).length)) }

/-! ### Concrete test frames -/

/-- Test-data builder: one record with the given entity/municipality key,
occurrence month, population and `''`-column value; the remaining columns
are immaterial defaults. -/
def mkRec (ce ne cm nm : String) (mes : Nat) (pob : Option ℚ) (v : Option String) : Record :=
  { claveEntidad := ce
    nomEnt := ne
    claveMunicipio := cm
    nomMun := nm
    fechaOcurr := some { anio := 2024, mes := mes, dia := 1 }
    anioOcur := 2024
    sexoCat := none
    edadAnos := none
    causaDefCat := none
    lugarOcurCat := none
    pobTotal := pob
    latDecimal := none
    lonDecimal := none
    emptyCol := v }

instance {ε α : Type} [DecidableEq ε] [DecidableEq α] : DecidableEq (Except ε α) :=
  fun a b =>
    match a, b with
    | .error x, .error y =>
      if h : x = y then .isTrue (by rw [h]) else .isFalse (by intro hc; cases hc; exact h rfl)
    | .error _, .ok _ => .isFalse (by intro hc; cases hc)
    | .ok _, .error _ => .isFalse (by intro hc; cases hc)
    | .ok x, .ok y =>
      if h : x = y then .isTrue (by rw [h]) else .isFalse (by intro hc; cases hc; exact h rfl)

/-! ### Claim C3: risk classification bands -/

/-- Claim C3: the risk classification is a five-level step function of the
index with lower-bound-inclusive bands: `v ≥ 80` is CRITICAL (the label
`etiquetaCritico`), `60 ≤ v < 80` HIGH (`etiquetaAlto`), `40 ≤ v < 60`
MEDIUM (`etiquetaMedio`), `20 ≤ v < 40` LOW (`etiquetaBajo`) and `v < 20`
VERY_LOW (`etiquetaMuyBajo`); in particular the boundary values 80, 60, 40,
20 fall in the upper band, and 19.999 classifies VERY_LOW (instantiated in
the witness). -/
theorem c3_clasificacion_bandas :
    ∀ v : ℚ,
      (80 ≤ v → clasificar_riesgo (.val v) = etiquetaCritico) ∧
      (60 ≤ v ∧ v < 80 → clasificar_riesgo (.val v) = etiquetaAlto) ∧
      (40 ≤ v ∧ v < 60 → clasificar_riesgo (.val v) = etiquetaMedio) ∧
      (20 ≤ v ∧ v < 40 → clasificar_riesgo (.val v) = etiquetaBajo) ∧
      (v < 20 → clasificar_riesgo (.val v) = etiquetaMuyBajo) := by
  intro v
  refine ⟨fun h => ?_, fun h => ?_, fun h => ?_, fun h => ?_, fun h => ?_⟩
  · simp [clasificar_riesgo, PFloat.geQ, h]
  · simp [clasificar_riesgo, PFloat.geQ, h.1, not_le.mpr h.2]
  · have h80 : ¬(80 : ℚ) ≤ v := not_le.mpr (h.2.trans (by norm_num))
    have h60 : ¬(60 : ℚ) ≤ v := not_le.mpr h.2
    simp [clasificar_riesgo, PFloat.geQ, h.1, h80, h60]
  · have h80 : ¬(80 : ℚ) ≤ v := not_le.mpr (h.2.trans (by norm_num))
    have h60 : ¬(60 : ℚ) ≤ v := not_le.mpr (h.2.trans (by norm_num))
    have h40 : ¬(40 : ℚ) ≤ v := not_le.mpr h.2
    simp [clasificar_riesgo, PFloat.geQ, h.1, h80, h60, h40]
  · have h80 : ¬(80 : ℚ) ≤ v := not_le.mpr (h.trans (by norm_num))
    have h60 : ¬(60 : ℚ) ≤ v := not_le.mpr (h.trans (by norm_num))
    have h40 : ¬(40 : ℚ) ≤ v := not_le.mpr (h.trans (by norm_num))
    have h20 : ¬(20 : ℚ) ≤ v := not_le.mpr h
    simp [clasificar_riesgo, PFloat.geQ, h80, h60, h40, h20]

/-- Witness for C3: the boundary values 80, 60, 40, 20 and the value 19.999
instantiate every band of `c3_clasificacion_bandas`. -/
theorem c3_clasificacion_bandas_witness :
    clasificar_riesgo (.val 80) = etiquetaCritico ∧
    clasificar_riesgo (.val 60) = etiquetaAlto ∧
    clasificar_riesgo (.val 40) = etiquetaMedio ∧
    clasificar_riesgo (.val 20) = etiquetaBajo ∧
    clasificar_riesgo (.val (19999 / 1000)) = etiquetaMuyBajo :=
  ⟨(c3_clasificacion_bandas 80).1 (by norm_num),
   (c3_clasificacion_bandas 60).2.1 (by norm_num),
   (c3_clasificacion_bandas 40).2.2.1 (by norm_num),
   (c3_clasificacion_bandas 20).2.2.2.1 (by norm_num),
   (c3_clasificacion_bandas (19999 / 1000)).2.2.2.2 (by norm_num)⟩

/-! ### Claim C4: stable classification labels (corrected) -/

/-- Counterexample to claim C4 as stated: the label produced for an index
of 85 is the string `"🔴 CRÍTICO"`, which is not one of
`CRITICAL|HIGH|MEDIUM|LOW|VERY_LOW`. -/
theorem c4_etiqueta_no_inglesa :
    clasificar_riesgo (.val 85) = etiquetaCritico ∧
    etiquetaCritico ∉ (["CRITICAL", "HIGH", "MEDIUM", "LOW", "VERY_LOW"] : List String) := by
  constructor
  · simp [clasificar_riesgo, PFloat.geQ]
    norm_num
  · decide

/-- Claim C4, amended: for every index value the label is exactly one of
the five stable strings `"🔴 CRÍTICO"`, `"🟠 ALTO"`, `"🟡 MEDIO"`,
`"🟢 BAJO"`, `"✅ MUY BAJO"` (not the English names of the spec). -/
theorem c4_etiquetas_estables :
    ∀ x : PFloat, clasificar_riesgo x ∈
      [etiquetaCritico, etiquetaAlto, etiquetaMedio, etiquetaBajo, etiquetaMuyBajo] := by
  intro x
  unfold clasificar_riesgo
  split_ifs <;> simp

/-! ### Claim C1: rate per 100k (corrected) -/

/-- Spec-side characterization of the computed rate: with a positive (or at
least nonzero) aggregated population the rate is
`count / population * 100000` rounded to two decimals half-to-even; a
missing population yields NaN (the null marker); a zero population with a
positive count yields +inf — not null, which is what refutes the claim as
stated. -/
def specRate (casos : Nat) (pob : Option ℚ) : PFloat :=
  match pob with
  | none => .nan
  | some p =>
    if p = 0 then (if casos = 0 then .nan else .inf)
    else .val (roundQ2 ((casos : ℚ) / p * 100000))

/-- The pipeline computation of the rate agrees with its spec-side
characterization. -/
theorem tasaPor100k_eq_specRate (casos : Nat) (pob : Option ℚ) :
    tasaPor100k casos pob = specRate casos pob := by
  cases pob with
  | none => rfl
  | some p =>
    by_cases hp : p = 0
    · subst hp
      by_cases hc : casos = 0
      · subst hc
        simp [tasaPor100k, specRate, PFloat.ofOption, PFloat.div, PFloat.mul, PFloat.round2]
      · have hcq : (0 : ℚ) < (casos : ℚ) := by
          exact_mod_cast Nat.pos_of_ne_zero hc
        simp [tasaPor100k, specRate, PFloat.ofOption, PFloat.div, PFloat.mul, PFloat.round2,
          hc, hcq, hcq.ne', hcq.le]
    · simp [tasaPor100k, specRate, PFloat.ofOption, PFloat.div, PFloat.mul, PFloat.round2, hp]

/-- Concrete frame refuting C1: one region whose aggregated population is
zero while one incident is counted. -/
def dfC1x : DataFrame :=
  { hasEmptyCol := true
    rows := [mkRec "01" "AGS" "001" "Ags" 1 (some 0) (some "x")] }

/-- The `lista_entidades` row the frame `dfC1x` produces. -/
def c1xRow : EntidadStats :=
  { claveEntidad := "01"
    nombreEntidad := "AGS"
    totalCasos := 1
    poblacion := some 0
    tasa := .inf }

/-- Counterexample to claim C1 as stated: on a group with aggregated
population zero and a positive count, the reported rate is +inf — a
non-null float, not the NaN/null marker and not zero. -/
theorem c1_tasa_poblacion_cero_inf :
    lista_entidades dfC1x = Except.ok [c1xRow] ∧
    c1xRow.tasa = PFloat.inf ∧
    PFloat.inf ≠ PFloat.nan ∧
    PFloat.inf ≠ PFloat.val 0 := by
  refine ⟨by decide, rfl, by decide, by decide⟩

/-- Claim C1, amended: in `lista_entidades` and in `indices_violencia`
every reported rate equals the group count divided by the aggregated
population times 100000 rounded to two decimals half-to-even; the rate is
NaN (null) when the population is missing or when both population and
count are zero, but it is +inf — not null — when the population is zero
and the count positive. -/
theorem c1_tasa_formula :
    (∀ df l, lista_entidades df = Except.ok l →
      ∀ e ∈ l, e.tasa = specRate e.totalCasos e.poblacion) ∧
    (∀ tipo limite df l, indices_violencia tipo limite df = Except.ok l →
      ∀ e ∈ l, e.tasa = specRate e.totalCasos e.poblacion) := by
  constructor
  · intro df l hok e he
    by_cases h : df.hasEmptyCol
    · rw [lista_entidades, if_pos h] at hok
      obtain rfl : _ = l := Except.ok.inj hok
      have he2 : e ∈ listaEntidadesStats df.rows :=
        (List.perm_insertionSort _ _).mem_iff.mp he
      obtain ⟨k, _, rfl⟩ := List.mem_map.1 he2
      exact tasaPor100k_eq_specRate _ _
    · rw [lista_entidades, if_neg h] at hok
      simp at hok
  · intro tipo limite df l hok e he
    by_cases h : df.hasEmptyCol
    · rw [indices_violencia, if_pos h] at hok
      obtain rfl : _ = l := Except.ok.inj hok
      have he1 := List.take_subset _ _ he
      have he2 : e ∈ (aggRows tipo df.rows).map
          (mkIndiceRow 0.6 0.4 (maxTotalCasos (aggRows tipo df.rows))) :=
        (List.perm_insertionSort _ _).mem_iff.mp he1
      obtain ⟨a, _, rfl⟩ := List.mem_map.1 he2
      exact tasaPor100k_eq_specRate _ _
    · rw [indices_violencia, if_neg h] at hok
      simp at hok

/-- Frame instantiating the amended C1: one region whose population column
is entirely missing, so the aggregated population is NaN. -/
def dfC1w : DataFrame :=
  { hasEmptyCol := true
    rows := [mkRec "01" "AGS" "001" "Ags" 1 none (some "x")] }

/-- The `lista_entidades` row the frame `dfC1w` produces: a NaN rate. -/
def c1wRow : EntidadStats :=
  { claveEntidad := "01"
    nombreEntidad := "AGS"
    totalCasos := 1
    poblacion := none
    tasa := .nan }

/-- Witness for `c1_tasa_formula` at the concrete frame `dfC1w`. -/
theorem c1_tasa_formula_witness :
    lista_entidades dfC1w = Except.ok [c1wRow] ∧
    c1wRow.tasa = specRate c1wRow.totalCasos c1wRow.poblacion := by
  have h : lista_entidades dfC1w = Except.ok [c1wRow] := by decide
  exact ⟨h, c1_tasa_formula.1 dfC1w [c1wRow] h c1wRow (by decide)⟩

/-! ### Claim C5: load failure on empty record set (corrected) -/

/-- Raw table whose only record has no parsable occurrence date: cleaning
leaves zero valid records. -/
def dfC5 : DataFrame :=
  { hasEmptyCol := false
    rows := [{ mkRec "01" "AGS" "001" "Ags" 1 none none with fechaOcurr := none }] }

/-- Counterexample to claim C5 as stated: a load whose cleaning leaves zero
valid records still reports success and still publishes the (empty) store,
instead of failing with the store unpublished. -/
theorem c5_carga_vacia_exitosa :
    (limpiar_datos dfC5).rows = [] ∧
    cargar_datos none dfC5 = (true, some (limpiar_datos dfC5)) ∧
    (cargar_datos none dfC5).2 ≠ none := by
  refine ⟨by decide, rfl, by decide⟩

/-- Claim C5, amended: loading a parsed table never fails — even when zero
valid records remain after cleaning it reports success and publishes the
empty store.  On such a store `estadisticas_generales` answers the same
no-data 404 it answers before any load, while `lista_entidades` instead
returns an empty result (or the `''`-column 500), so "no data" is not
reported uniformly. -/
theorem c5_carga_siempre_publica :
    (∀ st raw, (cargar_datos st raw).1 = true ∧
      (cargar_datos st raw).2 = some (limpiar_datos raw)) ∧
    (∀ raw now, (limpiar_datos raw).rows = [] →
      estadisticas_generales (cargar_datos none raw).2 now = .error errNoData ∧
      (∀ df, (cargar_datos none raw).2 = some df →
        lista_entidades df = .ok [] ∨ lista_entidades df = .error errAggKeyError)) := by
  constructor
  · intro st raw
    exact ⟨rfl, rfl⟩
  · intro raw now h
    constructor
    · simp [cargar_datos, estadisticas_generales, h]
    · intro df hdf
      obtain rfl : limpiar_datos raw = df := Option.some.inj hdf
      by_cases hc : (limpiar_datos raw).hasEmptyCol
      · left
        rw [lista_entidades, if_pos hc]
        simp [listaEntidadesStats, firstOccKeys, firstOccAux, h]
      · right
        rw [lista_entidades, if_neg hc]

/-- Witness for `c5_carga_siempre_publica` at the zero-valid-record table
`dfC5`. -/
theorem c5_carga_siempre_publica_witness :
    (cargar_datos none dfC5).1 = true ∧
    estadisticas_generales (cargar_datos none dfC5).2 "2024-12-15T00:00:00"
      = .error errNoData :=
  ⟨(c5_carga_siempre_publica.1 none dfC5).1,
   (c5_carga_siempre_publica.2 dfC5 "2024-12-15T00:00:00" (by decide)).1⟩

/-! ### Claim C6: unknown filter codes (corrected) -/

/-- Store with one record for entity "01". -/
def dfC6 : DataFrame :=
  { hasEmptyCol := true
    rows := [mkRec "01" "AGS" "001" "Ags" 1 none (some "x")] }

/-- Counterexample to claim C6 as stated: filtering by the unknown entity
code "99" does not yield an empty result — both the demographic profile and
the entity comparison raise a 404 `HTTPException`. -/
theorem c6_codigo_desconocido_error :
    perfil_demografico (some "99") none dfC6 = .error errFiltros ∧
    (∀ out, perfil_demografico (some "99") none dfC6 ≠ .ok out) ∧
    comparar_entidades ["99"] dfC6 = .error errEntidades := by
  have h1 : perfil_demografico (some "99") none dfC6 = .error errFiltros := by decide
  refine ⟨h1, ?_, by decide⟩
  intro out hc
  rw [h1] at hc
  exact Except.noConfusion hc

/-- Claim C6, amended: a filter combination matching zero records — an
unknown code included — makes the query raise the zero-match 404 error
rather than return an empty result; unknown codes are treated exactly like
any other zero-match combination. -/
theorem c6_filtros_vacios_error :
    (∀ entidad municipio df,
      (filtrarMunicipio municipio (filtrarEntidad entidad df.rows)).isEmpty = true →
      perfil_demografico entidad municipio df = .error errFiltros) ∧
    (∀ ents df, (comparFilter ents df.rows).isEmpty = true →
      comparar_entidades ents df = .error errEntidades) := by
  constructor
  · intro e m df h
    rw [perfil_demografico]
    simp only [h, if_true]
  · intro ents df h
    rw [comparar_entidades]
    simp only [h, if_true]

/-- Witness for `c6_filtros_vacios_error` at the store `dfC6` and the
unknown code "99". -/
theorem c6_filtros_vacios_error_witness :
    perfil_demografico (some "99") none dfC6 = Except.error errFiltros ∧
    comparar_entidades ["99"] dfC6 = Except.error errEntidades :=
  ⟨c6_filtros_vacios_error.1 (some "99") none dfC6 (by decide),
   c6_filtros_vacios_error.2 ["99"] dfC6 (by decide)⟩

/-! ### Claim C9: load idempotence and query determinism (corrected) -/

/-- Raw table with one valid record, loaded twice in the C9 statements. -/
def dfC9 : DataFrame :=
  { hasEmptyCol := true
    rows := [mkRec "01" "AGS" "001" "Ags" 1 none (some "x")] }

/-- Counterexample to claim C9 as stated: loading identical input twice
yields the very same store, yet the general-statistics query is not
byte-identical across the two loads when the two calls observe different
wall-clock instants — `fecha_actualizacion` embeds `datetime.now()`. -/
theorem c9_timestamp_difiere :
    (cargar_datos ((cargar_datos none dfC9).2) dfC9).2 = (cargar_datos none dfC9).2 ∧
    estadisticas_generales (cargar_datos ((cargar_datos none dfC9).2) dfC9).2
        "2024-01-01T00:00:00"
      ≠ estadisticas_generales (cargar_datos none dfC9).2 "2024-01-01T00:00:01" := by
  refine ⟨rfl, by decide⟩

/-- Claim C9, amended: loading identical input twice yields literally
identical stores, and every query is a deterministic function of the store,
its parameters and the wall clock — so results across the two loads are
byte-identical whenever the two calls observe the same clock reading (the
timestamp field is the only clock-dependent output). -/
theorem c9_carga_determinista :
    ∀ st raw now,
      (cargar_datos ((cargar_datos st raw).2) raw).2 = (cargar_datos st raw).2 ∧
      estadisticas_generales (cargar_datos ((cargar_datos st raw).2) raw).2 now
        = estadisticas_generales (cargar_datos st raw).2 now ∧
      ((cargar_datos ((cargar_datos st raw).2) raw).2.map lista_entidades)
        = ((cargar_datos st raw).2.map lista_entidades) ∧
      (∀ tipo limite,
        ((cargar_datos ((cargar_datos st raw).2) raw).2.map (indices_violencia tipo limite))
          = ((cargar_datos st raw).2.map (indices_violencia tipo limite))) := by
  intro st raw now
  exact ⟨rfl, rfl, rfl, fun _ _ => rfl⟩

/-! ### Claim C10: the aggregations count a column named the empty string -/

/-- Store with an entity group of two rows, exactly one of which has a
non-null `''`-column value: the reported count is 1, not the row count 2. -/
def dfC10 : DataFrame :=
  { hasEmptyCol := true
    rows := [mkRec "01" "AGS" "001" "Ags" 1 none (some "x"),
             mkRec "01" "AGS" "001" "Ags" 1 none none] }

/-- The `lista_entidades` row the frame `dfC10` produces. -/
def c10Row : EntidadStats :=
  { claveEntidad := "01"
    nombreEntidad := "AGS"
    totalCasos := 1
    poblacion := none
    tasa := .nan }

/-- A frame without a `''` column. -/
def dfSinCol : DataFrame :=
  { hasEmptyCol := false
    rows := [mkRec "01" "AGS" "001" "Ags" 1 none (some "x")] }

/-- Claim C10: every grouped aggregation endpoint counts the column
literally named `''`: on a frame without such a column each of them fails
with the internal error of the pandas `KeyError` (the temporal and
comparative endpoints only after their earlier zero-match 404 check
passes); on a frame with the column, the reported `total_casos` of every
group equals the number of non-null `''` entries within that group — which
the final concrete conjunct separates from the group's row count. -/
theorem c10_columna_vacia :
    (∀ df, df.hasEmptyCol = false →
      lista_entidades df = .error errAggKeyError ∧
      (∀ tipo limite, indices_violencia tipo limite df = .error errAggKeyError) ∧
      (∀ limite, zonas_calientes limite df = .error errAggKeyError) ∧
      mapa_calor_geografico df = .error errAggKeyError ∧
      (df.rows.isEmpty = false → analisis_tendencias none df = .error errAggKeyError) ∧
      (∀ ents, (comparFilter ents df.rows).isEmpty = false →
        comparar_entidades ents df = .error errAggKeyError)) ∧
    (∀ df l, lista_entidades df = Except.ok l → ∀ e ∈ l,
      e.totalCasos = countNonNull (entGroup df.rows (e.claveEntidad, e.nombreEntidad))) ∧
    (∀ limite df l, indices_violencia .entidad limite df = Except.ok l → ∀ e ∈ l,
      e.totalCasos = countNonNull (entGroup df.rows (e.clave, e.nombre))) ∧
    (∀ limite df l, indices_violencia .municipio limite df = Except.ok l → ∀ e ∈ l,
      ∃ ent, e.entidadNombre = some ent ∧
        e.totalCasos = countNonNull (munGroup df.rows (e.clave, e.nombre, ent))) ∧
    (∀ limite df l, zonas_calientes limite df = Except.ok l → ∀ e ∈ l,
      e.totalCasos = countNonNull
        (munGroup df.rows (e.claveMunicipio, e.nombreMunicipio, e.entidad))) ∧
    (∀ df l, mapa_calor_geografico df = Except.ok l → ∀ e ∈ l,
      e.totalCasos = countNonNull
        (calorGroup df.rows (e.clave, e.nombre, e.latitud, e.longitud))) ∧
    (∀ df out, analisis_tendencias none df = Except.ok out → ∀ p ∈ out.datos,
      p.2 = countNonNull (mesGroup df.rows p.1)) ∧
    (∀ ents df l, comparar_entidades ents df = Except.ok l → ∀ e ∈ l,
      e.totalCasos = countNonNull (entGroup (comparFilter ents df.rows) (e.clave, e.nombre))) ∧
    (countNonNull (entGroup dfC10.rows ("01", "AGS")) = 1 ∧
      (entGroup dfC10.rows ("01", "AGS")).length = 2 ∧
      lista_entidades dfC10 = Except.ok [c10Row]) := by
  refine ⟨?_, ?_, ?_, ?_, ?_, ?_, ?_, ?_, by decide, by decide, by decide⟩
  · intro df h
    refine ⟨?_, fun tipo limite => ?_, fun limite => ?_, ?_, fun hr => ?_, fun ents hr => ?_⟩
    · simp [lista_entidades, h]
    · simp [indices_violencia, h]
    · simp [zonas_calientes, h]
    · simp [mapa_calor_geografico, h]
    · rw [analisis_tendencias]
      simp only [filtrarEntidad, hr, h]
      simp
    · rw [comparar_entidades]
      simp only [hr, h]
      simp
  · intro df l hok e he
    by_cases h : df.hasEmptyCol
    · rw [lista_entidades, if_pos h] at hok
      obtain rfl : _ = l := Except.ok.inj hok
      have he2 : e ∈ listaEntidadesStats df.rows :=
        (List.perm_insertionSort _ _).mem_iff.mp he
      obtain ⟨k, _, rfl⟩ := List.mem_map.1 he2
      rfl
    · rw [lista_entidades, if_neg h] at hok
      simp at hok
  · intro limite df l hok e he
    by_cases h : df.hasEmptyCol
    · rw [indices_violencia, if_pos h] at hok
      obtain rfl : _ = l := Except.ok.inj hok
      have he1 := List.take_subset _ _ he
      have he2 := (List.perm_insertionSort _ _).mem_iff.mp he1
      obtain ⟨a, ha, rfl⟩ := List.mem_map.1 he2
      obtain ⟨k, _, rfl⟩ := List.mem_map.1 ha
      rfl
    · rw [indices_violencia, if_neg h] at hok
      simp at hok
  · intro limite df l hok e he
    by_cases h : df.hasEmptyCol
    · rw [indices_violencia, if_pos h] at hok
      obtain rfl : _ = l := Except.ok.inj hok
      have he1 := List.take_subset _ _ he
      have he2 := (List.perm_insertionSort _ _).mem_iff.mp he1
      obtain ⟨a, ha, rfl⟩ := List.mem_map.1 he2
      obtain ⟨k, _, rfl⟩ := List.mem_map.1 ha
      exact ⟨k.2.2, rfl, rfl⟩
    · rw [indices_violencia, if_neg h] at hok
      simp at hok
  · intro limite df l hok e he
    by_cases h : df.hasEmptyCol
    · rw [zonas_calientes, if_pos h] at hok
      obtain rfl : _ = l := Except.ok.inj hok
      have he1 := List.take_subset _ _ he
      have he2 := (List.perm_insertionSort _ _).mem_iff.mp he1
      obtain ⟨a, ha, rfl⟩ := List.mem_map.1 he2
      obtain ⟨k, _, rfl⟩ := List.mem_map.1 ha
      rfl
    · rw [zonas_calientes, if_neg h] at hok
      simp at hok
  · intro df l hok e he
    by_cases h : df.hasEmptyCol
    · rw [mapa_calor_geografico, if_pos h] at hok
      obtain rfl : _ = l := Except.ok.inj hok
      have he2 := (List.perm_insertionSort _ _).mem_iff.mp he
      obtain ⟨k, _, rfl⟩ := List.mem_map.1 he2
      rfl
    · rw [mapa_calor_geografico, if_neg h] at hok
      simp at hok
  · intro df out hok p hp
    rw [analisis_tendencias] at hok
    by_cases hr : (filtrarEntidad none df.rows).isEmpty
    · rw [if_pos hr] at hok
      simp at hok
    · rw [if_neg hr] at hok
      by_cases h : df.hasEmptyCol
      · rw [if_pos h] at hok
        obtain rfl : _ = out := Except.ok.inj hok
        obtain ⟨m, _, rfl⟩ := List.mem_map.1 hp
        rfl
      · rw [if_neg h] at hok
        simp at hok
  · intro ents df l hok e he
    rw [comparar_entidades] at hok
    by_cases hr : (comparFilter ents df.rows).isEmpty
    · rw [if_pos hr] at hok
      simp at hok
    · rw [if_neg hr] at hok
      by_cases h : df.hasEmptyCol
      · rw [if_pos h] at hok
        obtain rfl : _ = l := Except.ok.inj hok
        have he2 := (List.perm_insertionSort _ _).mem_iff.mp he
        obtain ⟨k, _, rfl⟩ := List.mem_map.1 he2
        rfl
      · rw [if_neg h] at hok
        simp at hok

/-- Witness for `c10_columna_vacia`: a frame without the `''` column makes
the entity list and the temporal analysis fail with the internal error. -/
theorem c10_columna_vacia_witness :
    lista_entidades dfSinCol = Except.error errAggKeyError ∧
    analisis_tendencias none dfSinCol = Except.error errAggKeyError := by
  have h := c10_columna_vacia.1 dfSinCol (by decide)
  exact ⟨h.1, h.2.2.2.2.1 (by decide)⟩

/-! ### Claim C8: monthly trend -/

/-- Membership in the first-appearance key accumulator. -/
theorem mem_firstOccAux {A K : Type} [DecidableEq K] (key : A → K) (xs : List A) :
    ∀ (acc : List K) (k : K),
      k ∈ firstOccAux key acc xs ↔ k ∈ acc ∨ ∃ x ∈ xs, key x = k := by
  induction xs with
  | nil =>
    intro acc k
    simp [firstOccAux]
  | cons x xs ih =>
    intro acc k
    rw [firstOccAux, ih]
    by_cases hx : key x ∈ acc
    · rw [if_pos hx]
      constructor
      · rintro (h | ⟨y, hy, hk⟩)
        · exact Or.inl h
        · exact Or.inr ⟨y, List.mem_cons_of_mem _ hy, hk⟩
      · rintro (h | ⟨y, hy, hk⟩)
        · exact Or.inl h
        · rcases List.mem_cons.mp hy with rfl | hy2
          · exact Or.inl (hk ▸ hx)
          · exact Or.inr ⟨y, hy2, hk⟩
    · rw [if_neg hx]
      constructor
      · rintro (h | ⟨y, hy, hk⟩)
        · rcases List.mem_append.mp h with h2 | h2
          · exact Or.inl h2
          · exact Or.inr ⟨x, List.mem_cons_self _ _, (List.mem_singleton.mp h2).symm⟩
        · exact Or.inr ⟨y, List.mem_cons_of_mem _ hy, hk⟩
      · rintro (h | ⟨y, hy, hk⟩)
        · exact Or.inl (List.mem_append.mpr (Or.inl h))
        · rcases List.mem_cons.mp hy with rfl | hy2
          · exact Or.inl (List.mem_append.mpr (Or.inr (List.mem_singleton.mpr hk.symm)))
          · exact Or.inr ⟨y, hy2, hk⟩

/-- A key occurs among the first-appearance keys exactly when some element
carries it. -/
theorem mem_firstOccKeys {A K : Type} [DecidableEq K] (key : A → K) (xs : List A) (k : K) :
    k ∈ firstOccKeys key xs ↔ ∃ x ∈ xs, key x = k := by
  rw [firstOccKeys, mem_firstOccAux]
  simp

/-- When every row of a group has a non-null `''` value, the `''` count is
the row count. -/
theorem countNonNull_eq_length (rows : List Record)
    (h : ∀ r ∈ rows, r.emptyCol.isSome = true) : countNonNull rows = rows.length := by
  rw [countNonNull, List.filter_eq_self.mpr h]

/-- Spec-side month-over-month percentage changes of a bucket-count
series: one entry per consecutive pair. -/
def specPctChanges : List ℚ → List ℚ
  | c :: c2 :: rest => (c2 - c) / c * 100 :: specPctChanges (c2 :: rest)
  | _ => []

/-- Spec-side arithmetic mean of a rational list. -/
def specMeanQ (l : List ℚ) : ℚ := l.foldl (· + ·) 0 / (l.length : ℚ)

/-- A consecutive-pair list is one shorter than its source. -/
theorem length_specPctChanges : ∀ l : List ℚ, (specPctChanges l).length = l.length - 1
  | [] => rfl
  | [_] => rfl
  | c :: c2 :: rest => by
    rw [specPctChanges]
    simp [length_specPctChanges (c2 :: rest)]

/-- Over nonzero counts, the float `pct_change * 100` tail is the
spec-side percentage-change list. -/
theorem pctChanges_eq_val :
    ∀ (cs : List ℚ) (prev : ℚ), prev ≠ 0 → (∀ c ∈ cs, c ≠ 0) →
      pctChanges prev cs = (specPctChanges (prev :: cs)).map PFloat.val := by
  intro cs
  induction cs with
  | nil =>
    intro prev _ _
    rfl
  | cons c rest ih =>
    intro prev hp hc
    rw [pctChanges, specPctChanges, List.map_cons,
      ih c (hc c (List.mem_cons_self c rest)) (fun d hd => hc d (List.mem_cons_of_mem _ hd))]
    have harith : (c + -prev) / prev * 100 = (c - prev) / prev * 100 := by ring
    simp only [PFloat.sub, PFloat.neg, PFloat.add, PFloat.div, PFloat.mul, if_neg hp]
    rw [harith]

/-- Folding float addition over lifted rationals is rational folding. -/
theorem pfFoldl_add_val (qs : List ℚ) :
    ∀ a : ℚ, (qs.map PFloat.val).foldl PFloat.add (.val a) = .val (qs.foldl (· + ·) a) := by
  induction qs with
  | nil =>
    intro a
    rfl
  | cons q qs ih =>
    intro a
    rw [List.map_cons, List.foldl_cons, List.foldl_cons]
    exact ih (a + q)

/-- The pandas mean of a NaN followed by finite values: the NaN is skipped
and the result is the rational mean of the rest. -/
theorem pfMean_nan_cons_val (qs : List ℚ) (h : qs ≠ []) :
    pfMean (.nan :: qs.map PFloat.val) = .val (specMeanQ qs) := by
  have hfilter : (PFloat.nan :: qs.map PFloat.val).filter (fun x => !x.isNaN)
      = qs.map PFloat.val := by
    rw [List.filter_cons_of_neg (by simp [PFloat.isNaN])]
    exact List.filter_eq_self.mpr (by
      intro x hx
      obtain ⟨q, _, rfl⟩ := List.mem_map.1 hx
      rfl)
  have hq : ((qs.length : ℚ)) ≠ 0 := by
    have : qs.length ≠ 0 := fun h0 => h (List.length_eq_zero.mp h0)
    exact_mod_cast this
  simp only [pfMean, hfilter, List.length_map]
  rw [if_neg (fun h0 => h (List.length_eq_zero.mp h0))]
  rw [pfSum, pfFoldl_add_val qs 0]
  simp [PFloat.div, hq, specMeanQ]

/-- The trend mean the endpoint computes over a series of nonzero bucket
counts equals the spec-side mean of the consecutive percentage changes. -/
theorem pfMean_variacion (cs : List ℚ) (h0 : ∀ c ∈ cs, c ≠ 0) (hlen : 1 < cs.length) :
    pfMean (variacion100 cs) = .val (specMeanQ (specPctChanges cs)) := by
  cases cs with
  | nil => simp at hlen
  | cons c rest =>
    rw [variacion100,
      pctChanges_eq_val rest c (h0 c (List.mem_cons_self _ _))
        (fun d hd => h0 d (List.mem_cons_of_mem _ hd))]
    apply pfMean_nan_cons_val
    intro hnil
    have h2 := length_specPctChanges (c :: rest)
    rw [hnil] at h2
    simp only [List.length_nil, List.length_cons] at h2
    simp only [List.length_cons] at hlen
    omega

/-- Claim C8: over a frame whose `''` column exists and is fully non-null
(so bucket counts are the month row counts), the monthly trend returned by
`analisis_tendencias` is exactly the mean of the month-over-month
percentage changes across consecutive non-empty month buckets — months
with no records form no bucket and hence contribute no change.  The
witness instantiates the Jan=10 / Feb=0 / Mar=10 scenario: trend 0.0 and a
normal (`Except.ok`) result, no crash. -/
theorem c8_tendencia_mensual :
    ∀ df, df.hasEmptyCol = true → (∀ r ∈ df.rows, r.emptyCol.isSome = true) →
      df.rows.isEmpty = false → 1 < (mesesPresentes df.rows).length →
      analisis_tendencias none df = Except.ok
        { datos := (mesesPresentes df.rows).map (fun m => (m, (mesGroup df.rows m).length))
          tendenciaGeneral := .val (specMeanQ (specPctChanges
            ((mesesPresentes df.rows).map
              (fun m => (((mesGroup df.rows m).length : ℚ)))))) } := by
  intro df hcol hsome hne hlen
  have hgroups : ∀ m ∈ mesesPresentes df.rows,
      countNonNull (mesGroup df.rows m) = (mesGroup df.rows m).length := by
    intro m _
    exact countNonNull_eq_length _ (fun r hr => hsome r (List.filter_subset' _ hr))
  have hpos : ∀ m ∈ mesesPresentes df.rows, (mesGroup df.rows m).length ≠ 0 := by
    intro m hm
    have hm2 : m ∈ firstOccKeys mesDe df.rows :=
      (List.perm_insertionSort _ _).mem_iff.mp hm
    obtain ⟨r, hr, hkey⟩ := (mem_firstOccKeys mesDe df.rows m).mp hm2
    have hrg : r ∈ mesGroup df.rows m :=
      List.mem_filter.mpr ⟨hr, by simp [hkey]⟩
    intro h0
    rw [List.length_eq_zero.mp h0] at hrg
    exact List.not_mem_nil r hrg
  rw [analisis_tendencias]
  simp only [filtrarEntidad, hne, hcol, Bool.false_eq_true, if_false, if_true]
  congr 1
  congr 1
  · exact List.map_congr_left (fun m hm => by rw [hgroups m hm])
  · rw [if_pos hlen]
    rw [show (mesesPresentes df.rows).map
          (fun m => ((countNonNull (mesGroup df.rows m) : ℚ)))
        = (mesesPresentes df.rows).map (fun m => (((mesGroup df.rows m).length : ℚ))) from
      List.map_congr_left (fun m hm => by rw [hgroups m hm])]
    apply pfMean_variacion
    · intro c hc
      obtain ⟨m, hm, rfl⟩ := List.mem_map.1 hc
      exact_mod_cast hpos m hm
    · rw [List.length_map]
      exact hlen

/-- The Jan=10 / Feb=0 / Mar=10 frame: ten records in month 1, none in
month 2, ten in month 3. -/
def dfC8 : DataFrame :=
  { hasEmptyCol := true
    rows := List.replicate 10 (mkRec "01" "AGS" "001" "Ags" 1 none (some "x"))
      ++ List.replicate 10 (mkRec "01" "AGS" "001" "Ags" 3 none (some "x")) }

/-- Witness for `c8_tendencia_mensual` at the Jan=10/Feb=0/Mar=10 frame:
the endpoint returns normally with buckets [(1, 10), (3, 10)] and trend
0.0 — the empty February forms no bucket, the 10 → 10 transition
contributes 0%, and nothing crashes on the zero-count month. -/
theorem c8_tendencia_mensual_witness :
    analisis_tendencias none dfC8
      = Except.ok { datos := [(1, 10), (3, 10)], tendenciaGeneral := .val 0 } := by
  have h := c8_tendencia_mensual dfC8 (by decide) (by decide) (by decide) (by decide)
  rw [h]
  have hmeses : mesesPresentes dfC8.rows = [1, 3] := by decide
  have hlen1 : (mesGroup dfC8.rows 1).length = 10 := by decide
  have hlen3 : (mesGroup dfC8.rows 3).length = 10 := by decide
  rw [hmeses]
  simp only [List.map_cons, List.map_nil, hlen1, hlen3]
  have hmean : specMeanQ (specPctChanges [((10 : ℕ) : ℚ), ((10 : ℕ) : ℚ)]) = 0 := by
    norm_num [specPctChanges, specMeanQ]
  rw [hmean]

/-! ### Claim C2: composite violence index (corrected) -/

/-- Evaluation rule for the two-decimal rounding away from ties: when the
scaled value sits within a half below the next integer, the rounding is
that integer over 100. -/
theorem roundQ2_eq (q : ℚ) (n : ℤ) (h1 : (n : ℚ) ≤ q * 100) (h2 : q * 100 - (n : ℚ) < 1/2) :
    roundQ2 q = (n : ℚ) / 100 := by
  have hf : (q * 100).floor = n := by
    rw [ratFloor_eq_floor]
    exact Int.floor_eq_iff.mpr ⟨h1, by linarith⟩
  rw [roundQ2, roundHalfToEven, hf, if_pos (by linarith)]

/-- Characterization of the composite index on a finite rate and a nonzero
batch maximum: exactly the weighted formula, rounded to two decimals
half-to-even. -/
theorem indiceCompuesto_val (w1 w2 t : ℚ) (casos maxC : Nat) (hm : maxC ≠ 0) :
    indiceCompuesto w1 w2 (.val t) casos maxC
      = .val (roundQ2 (t * w1 + (casos : ℚ) / (maxC : ℚ) * 100 * w2)) := by
  have hmq : ((maxC : ℚ)) ≠ 0 := Nat.cast_ne_zero.mpr hm
  simp [indiceCompuesto, PFloat.mul, PFloat.add, PFloat.div, PFloat.round2, hmq]

/-- Claim C2, amended: every emitted index equals
`w1 * ratePer100k + w2 * (count / maxCountInBatch * 100)` rounded to two
decimals half-to-even — weights (0.6, 0.4) for `indices_violencia` and
(0.4, 0.6) for `zonas_calientes`, with `maxCountInBatch` recomputed from
the full batch of groups of the query; and the volume term of a region
attaining the batch maximum is exactly 100 provided that maximum is
positive (with an all-zero batch the term is 0/0 = NaN). -/
theorem c2_indice_formula :
    (∀ tipo limite df l, indices_violencia tipo limite df = Except.ok l → ∀ e ∈ l,
      e.indice = indiceCompuesto 0.6 0.4 e.tasa e.totalCasos
        (maxTotalCasos (aggRows tipo df.rows)) ∧
      ∀ t : ℚ, e.tasa = .val t → maxTotalCasos (aggRows tipo df.rows) ≠ 0 →
        e.indice = .val (roundQ2 (t * 0.6 +
          (e.totalCasos : ℚ) / ((maxTotalCasos (aggRows tipo df.rows) : ℚ)) * 100 * 0.4))) ∧
    (∀ limite df l, zonas_calientes limite df = Except.ok l → ∀ e ∈ l,
      e.indice = indiceCompuesto 0.4 0.6 e.tasa e.totalCasos
        (maxTotalCasos (zonaAggRows df.rows)) ∧
      ∀ t : ℚ, e.tasa = .val t → maxTotalCasos (zonaAggRows df.rows) ≠ 0 →
        e.indice = .val (roundQ2 (t * 0.4 +
          (e.totalCasos : ℚ) / ((maxTotalCasos (zonaAggRows df.rows) : ℚ)) * 100 * 0.6))) ∧
    (∀ tipo limite df l, indices_violencia tipo limite df = Except.ok l → ∀ e ∈ l,
      e.totalCasos = maxTotalCasos (aggRows tipo df.rows) →
      0 < maxTotalCasos (aggRows tipo df.rows) →
      ((PFloat.val ((e.totalCasos : ℚ))).div
          (.val ((maxTotalCasos (aggRows tipo df.rows) : ℚ)))).mul (.val 100)
        = .val 100) := by
  refine ⟨?_, ?_, ?_⟩
  · intro tipo limite df l hok e he
    by_cases h : df.hasEmptyCol
    · rw [indices_violencia, if_pos h] at hok
      obtain rfl : _ = l := Except.ok.inj hok
      have he1 := List.take_subset _ _ he
      have he2 := (List.perm_insertionSort _ _).mem_iff.mp he1
      obtain ⟨a, _, rfl⟩ := List.mem_map.1 he2
      refine ⟨rfl, fun t ht hm => ?_⟩
      have : tasaPor100k a.totalCasos a.poblacion = .val t := ht
      show indiceCompuesto 0.6 0.4 (tasaPor100k a.totalCasos a.poblacion) a.totalCasos
        (maxTotalCasos (aggRows tipo df.rows)) = _
      rw [this, indiceCompuesto_val _ _ _ _ _ hm]
      rfl
    · rw [indices_violencia, if_neg h] at hok
      simp at hok
  · intro limite df l hok e he
    by_cases h : df.hasEmptyCol
    · rw [zonas_calientes, if_pos h] at hok
      obtain rfl : _ = l := Except.ok.inj hok
      have he1 := List.take_subset _ _ he
      have he2 := (List.perm_insertionSort _ _).mem_iff.mp he1
      obtain ⟨a, _, rfl⟩ := List.mem_map.1 he2
      refine ⟨rfl, fun t ht hm => ?_⟩
      have : tasaPor100k a.totalCasos a.poblacion = .val t := ht
      show indiceCompuesto 0.4 0.6 (tasaPor100k a.totalCasos a.poblacion) a.totalCasos
        (maxTotalCasos (zonaAggRows df.rows)) = _
      rw [this, indiceCompuesto_val _ _ _ _ _ hm]
      rfl
    · rw [zonas_calientes, if_neg h] at hok
      simp at hok
  · intro tipo limite df l _ e _ he hpos
    have hq : ((maxTotalCasos (aggRows tipo df.rows) : ℚ)) ≠ 0 := by
      exact_mod_cast Nat.pos_iff_ne_zero.mp hpos
    rw [he]
    simp [PFloat.div, PFloat.mul, hq, div_self hq]

/-- Batch of two entity groups: region "01" with 3 counted incidents,
region "02" with 1; both with population 100000. -/
def dfC2 : DataFrame :=
  { hasEmptyCol := true
    rows := [mkRec "01" "A" "001" "MA" 1 (some 100000) (some "x"),
             mkRec "01" "A" "001" "MA" 1 (some 100000) (some "x"),
             mkRec "01" "A" "001" "MA" 1 (some 100000) (some "x"),
             mkRec "02" "B" "002" "MB" 1 (some 100000) (some "x")] }

/-- Aggregated group of region "01" in `dfC2`. -/
def aggC2A : AggRow :=
  { clave := "01"
    nombre := "A"
    entidadNombre := none
    totalCasos := 3
    poblacion := some 100000
    distribucionSexo := []
    causasPrincipales := []
    lugaresPrincipales := [] }

/-- Aggregated group of region "02" in `dfC2`. -/
def aggC2B : AggRow :=
  { clave := "02"
    nombre := "B"
    entidadNombre := none
    totalCasos := 1
    poblacion := some 100000
    distribucionSexo := []
    causasPrincipales := []
    lugaresPrincipales := [] }

/-- Counterexample to claim C2 as stated: for region "02" in the batch
`dfC2` the reported index is 13.93 — the exact weighted value
`0.6 * 1 + (1/3 * 100) * 0.4 = 209/15 = 13.9333…` rounded to two decimals
— so the index does not literally equal
`w1 * ratePer100k + w2 * (count / maxCountInBatch * 100)`. -/
theorem c2_indice_redondeado :
    ((indices_violencia .entidad 10 dfC2).map
        (fun l => l.map (fun e => (e.clave, e.totalCasos, e.tasa, e.indice))))
      = Except.ok [("01", 3, .val 3, .val (209/5)), ("02", 1, .val 1, .val (1393/100))] ∧
    (1393/100 : ℚ) ≠ 1 * 0.6 + (1 : ℚ)/3 * 100 * 0.4 := by
  have h0 : ((100000 : ℚ)) ≠ 0 := by norm_num
  have htA : tasaPor100k 3 (some 100000) = .val 3 := by
    rw [tasaPor100k_eq_specRate]
    simp only [specRate, if_neg h0]
    have hq : ((3 : ℕ) : ℚ) / 100000 * 100000 = 3 := by push_cast; norm_num
    rw [hq, roundQ2_eq 3 300 (by norm_num) (by norm_num)]
    norm_num
  have htB : tasaPor100k 1 (some 100000) = .val 1 := by
    rw [tasaPor100k_eq_specRate]
    simp only [specRate, if_neg h0]
    have hq : ((1 : ℕ) : ℚ) / 100000 * 100000 = 1 := by push_cast; norm_num
    rw [hq, roundQ2_eq 1 100 (by norm_num) (by norm_num)]
    norm_num
  have hiA : indiceCompuesto 0.6 0.4 (.val 3) 3 3 = .val (209/5) := by
    rw [indiceCompuesto_val 0.6 0.4 3 3 3 (by norm_num)]
    have hq : (3 : ℚ) * 0.6 + ((3 : ℕ) : ℚ) / ((3 : ℕ) : ℚ) * 100 * 0.4 = 209/5 := by
      push_cast
      norm_num
    rw [hq, roundQ2_eq (209/5) 4180 (by norm_num) (by norm_num)]
    norm_num
  have hiB : indiceCompuesto 0.6 0.4 (.val 1) 1 3 = .val (1393/100) := by
    rw [indiceCompuesto_val 0.6 0.4 1 1 3 (by norm_num)]
    have hq : (1 : ℚ) * 0.6 + ((1 : ℕ) : ℚ) / ((3 : ℕ) : ℚ) * 100 * 0.4 = 209/15 := by
      push_cast
      norm_num
    rw [hq, roundQ2_eq (209/15) 1393 (by norm_num) (by norm_num)]
    norm_num
  have hcmp : pfDescGe (.val (209/5)) (.val (1393/100)) = true := by
    simp only [pfDescGe, decide_eq_true_eq]
    norm_num
  constructor
  · have hagg : aggRows .entidad dfC2.rows = [aggC2A, aggC2B] := by decide
    have hmax : maxTotalCasos [aggC2A, aggC2B] = 3 := by decide
    rw [indices_violencia, if_pos (by decide : dfC2.hasEmptyCol = true), hagg, hmax]
    simp only [List.map_cons, List.map_nil, List.insertionSort, List.orderedInsert,
      mkIndiceRow, aggC2A, aggC2B, htA, htB, hiA, hiB, hcmp, if_true, List.take,
      Except.map]
  · norm_num

/-- Batch with one region whose population is missing: the rate and hence
the index are NaN, which lets every definition evaluate by `decide`. -/
def dfC2w : DataFrame :=
  { hasEmptyCol := true
    rows := [mkRec "03" "C" "003" "MC" 1 none (some "x")] }

/-- The `indices_violencia` row of `dfC2w`. -/
def c2wRow : IndiceRow :=
  { clave := "03"
    nombre := "C"
    entidadNombre := none
    totalCasos := 1
    poblacion := none
    distribucionSexo := []
    causasPrincipales := []
    lugaresPrincipales := []
    tasa := .nan
    indice := .nan
    categoriaRiesgo := etiquetaMuyBajo }

/-- Witness for `c2_indice_formula` at the concrete batch `dfC2w`:
the emitted index satisfies the (0.6, 0.4) composite formula, and the
volume term of the batch-maximum region evaluates to 100. -/
theorem c2_indice_formula_witness :
    indices_violencia .entidad 10 dfC2w = Except.ok [c2wRow] ∧
    c2wRow.indice = indiceCompuesto 0.6 0.4 c2wRow.tasa c2wRow.totalCasos
      (maxTotalCasos (aggRows .entidad dfC2w.rows)) ∧
    ((PFloat.val ((c2wRow.totalCasos : ℚ))).div
        (.val ((maxTotalCasos (aggRows .entidad dfC2w.rows) : ℚ)))).mul (.val 100)
      = .val 100 := by
  have h : indices_violencia .entidad 10 dfC2w = Except.ok [c2wRow] := by decide
  refine ⟨h, ?_, ?_⟩
  · exact (c2_indice_formula.1 .entidad 10 dfC2w [c2wRow] h c2wRow (by decide)).1
  · exact c2_indice_formula.2.2 .entidad 10 dfC2w [c2wRow] h c2wRow (by decide)
      (by decide) (by decide)

end Napi
